import Mathlib

/-!
Verification of the gait-phase estimation core of the hip-controller
repository (`src/hip_controller/control/high_level.py` and the constants in
`src/hip_controller/definitions.py`).

The embedding uses exact rationals (`ℚ`) for the Python `float` values in the
state-machine and steady-state logic; a separate small model `FpVal` of
IEEE-754 binary64 special values (NaN, infinities, overflow of finite
arithmetic) is used for the claims that are about NaN/infinity propagation.
The Python attribute `timestamp_sec`, which `__init__` declares but does not
assign, is modelled as `Option (Option ℚ)`: `none` is an unassigned attribute
(reading it raises `AttributeError`), `some none` is the Python value `None`,
and `some (some t)` is a float `t`.  Methods that may raise are embedded as
`Option`-returning functions (`none` = exception).
-/

namespace HipController

/-- The `MotionState` enum from `high_level.py` (INITIAL = -1, VELOCITY_MAX = 0,
ANGLE_MAX = 1, VELOCITY_MIN = 2, ANGLE_MIN = 3). -/
inductive MotionState where
  | INITIAL
  | VELOCITY_MAX
  | ANGLE_MAX
  | VELOCITY_MIN
  | ANGLE_MIN
deriving DecidableEq, Repr

/-- The four boolean flags of `ExtremaTrigger` (`vel_max`, `ang_max`,
`vel_min`, `ang_min`). -/
structure ExtremaTrigger where
  vel_max : Bool
  ang_max : Bool
  vel_min : Bool
  ang_min : Bool
deriving DecidableEq, Repr

/-- Function `math_utils.hit_zero_crossing_from_upper`: `prev >= 0 and curr < 0`. -/
def hit_zero_crossing_from_upper (curr prev : ℚ) : Bool :=
  0 ≤ prev && curr < 0

/-- Function `math_utils.hit_zero_crossing_from_lower`: `prev <= 0 and curr > 0`. -/
def hit_zero_crossing_from_lower (curr prev : ℚ) : Bool :=
  prev ≤ 0 && 0 < curr

/-- Method `ExtremaTrigger._angle_max_trigger`: velocity zero-crossing from upper,
with current angle positive. -/
def angle_max_trigger (curr_velocity prev_velocity curr_angle : ℚ) : Bool :=
  hit_zero_crossing_from_upper curr_velocity prev_velocity && 0 < curr_angle

/-- Method `ExtremaTrigger._angle_min_trigger`: velocity zero-crossing from lower,
with current angle negative. -/
def angle_min_trigger (curr_velocity prev_velocity curr_angle : ℚ) : Bool :=
  hit_zero_crossing_from_lower curr_velocity prev_velocity && curr_angle < 0

/-- Method `ExtremaTrigger._velocity_max_trigger`: angle zero-crossing from lower,
with current velocity positive. -/
def velocity_max_trigger (curr_angle prev_angle curr_velocity : ℚ) : Bool :=
  hit_zero_crossing_from_lower curr_angle prev_angle && 0 < curr_velocity

/-- Method `ExtremaTrigger._velocity_min_trigger`: angle zero-crossing from upper,
with current velocity negative. -/
def velocity_min_trigger (curr_angle prev_angle curr_velocity : ℚ) : Bool :=
  hit_zero_crossing_from_upper curr_angle prev_angle && curr_velocity < 0

/-- Method `ExtremaTrigger.update_triggers`: recompute the four flags from the
previous and current sample. -/
def update_triggers (curr_angle prev_angle curr_velocity prev_velocity : ℚ) :
    ExtremaTrigger :=
  { vel_max := velocity_max_trigger curr_angle prev_angle curr_velocity
    ang_max := angle_max_trigger curr_velocity prev_velocity curr_angle
    vel_min := velocity_min_trigger curr_angle prev_angle curr_velocity
    ang_min := angle_min_trigger curr_velocity prev_velocity curr_angle }

/-- Method `ExtremaTrigger._handle_initial_state`: first state out of INITIAL chosen
by flag priority `vel_max > ang_max > vel_min > ang_min`, INITIAL if no flag
is set. -/
def handle_initial_state (t : ExtremaTrigger) : MotionState :=
  if t.vel_max then MotionState.VELOCITY_MAX
  else if t.ang_max then MotionState.ANGLE_MAX
  else if t.vel_min then MotionState.VELOCITY_MIN
  else if t.ang_min then MotionState.ANGLE_MIN
  else MotionState.INITIAL

/-- Method `ExtremaTrigger.detect_state`: the cyclic state machine transition.  The
Python `if/elif` chain is matched branch for branch. -/
def detect_state (t : ExtremaTrigger) (current_state : MotionState) :
    MotionState :=
  if current_state = MotionState.INITIAL then handle_initial_state t
  else if current_state = MotionState.ANGLE_MAX ∧ t.vel_min then
    MotionState.VELOCITY_MIN
  else if current_state = MotionState.ANGLE_MIN ∧ t.vel_max then
    MotionState.VELOCITY_MAX
  else if current_state = MotionState.VELOCITY_MAX ∧ t.ang_max then
    MotionState.ANGLE_MAX
  else if current_state = MotionState.VELOCITY_MIN ∧ t.ang_min then
    MotionState.ANGLE_MIN
  else current_state

/-- Spec-side definition (for the cyclic-order claim): the unique successor in
the cycle VELOCITY_MAX → ANGLE_MAX → VELOCITY_MIN → ANGLE_MIN → VELOCITY_MAX.
INITIAL is mapped to itself; it is not part of the cycle. -/
def cyclic_successor : MotionState → MotionState
  | MotionState.INITIAL => MotionState.INITIAL
  | MotionState.VELOCITY_MAX => MotionState.ANGLE_MAX
  | MotionState.ANGLE_MAX => MotionState.VELOCITY_MIN
  | MotionState.VELOCITY_MIN => MotionState.ANGLE_MIN
  | MotionState.ANGLE_MIN => MotionState.VELOCITY_MAX

/-- Spec-side definition: the trigger flag that corresponds to each
non-INITIAL state. -/
def trigger_of_state (t : ExtremaTrigger) : MotionState → Bool
  | MotionState.INITIAL => false
  | MotionState.VELOCITY_MAX => t.vel_max
  | MotionState.ANGLE_MAX => t.ang_max
  | MotionState.VELOCITY_MIN => t.vel_min
  | MotionState.ANGLE_MIN => t.ang_min

/-- Constant `StateChangeTimeThreshold.TMIN` from `definitions.py` (seconds). -/
def TMIN : ℚ := 0

/-- Constant `StateChangeTimeThreshold.TMAX` from `definitions.py` (seconds). -/
def TMAX : ℚ := 3 / 5

/-- Constant `VALUE_NEAR_ZERO` from `definitions.py`. -/
def VALUE_NEAR_ZERO : ℚ := 1 / 1000000

/-- Constant `PositionLimitation.UPPER` from `definitions.py`. -/
def POS_UPPER : ℚ := 10

/-- Constant `PositionLimitation.LOWER` from `definitions.py`. -/
def POS_LOWER : ℚ := -10

/-- The mutable fields of `SteadyStateTracker`, over exact rationals. -/
structure SteadyStateTracker where
  angle_max : ℚ
  angle_min : ℚ
  velocity_max : ℚ
  velocity_min : ℚ
  vel_steady_state : ℚ
  z_t : ℚ
  pos_steady_state : ℚ
deriving DecidableEq, Repr

/-- Constructor `SteadyStateTracker.__init__`: every field starts at `0.0`. -/
def SteadyStateTracker.init : SteadyStateTracker :=
  ⟨0, 0, 0, 0, 0, 0, 0⟩

/-- Method `SteadyStateTracker.calculate_steady`:
`val_curr - ((val_max + val_min) / 2.0)`. -/
def calculate_steady (val_max val_min val_curr : ℚ) : ℚ :=
  val_curr - (val_max + val_min) / 2

/-- Method `SteadyStateTracker._calculate_vel_ss`. -/
def SteadyStateTracker.calculate_vel_ss (s : SteadyStateTracker)
    (curr_velocity : ℚ) : ℚ :=
  calculate_steady s.velocity_max s.velocity_min curr_velocity

/-- Method `SteadyStateTracker._calculate_ang_ss`. -/
def SteadyStateTracker.calculate_ang_ss (s : SteadyStateTracker)
    (curr_angle : ℚ) : ℚ :=
  calculate_steady s.angle_max s.angle_min curr_angle

/-- Method `SteadyStateTracker._calculate_z_t`: amplitude quotient, with
`VALUE_NEAR_ZERO` substituted for a zero angle amplitude. -/
def SteadyStateTracker.calculate_z_t (s : SteadyStateTracker) : ℚ :=
  let u_vel := |s.velocity_max - s.velocity_min|
  let u_ang := |s.angle_max - s.angle_min|
  let u_ang := if u_ang = 0 then VALUE_NEAR_ZERO else u_ang
  u_vel / u_ang

/-- Method `SteadyStateTracker._calculate_pos_ss` (reads the already-updated `z_t`). -/
def SteadyStateTracker.calculate_pos_ss (s : SteadyStateTracker)
    (curr_angle : ℚ) : ℚ :=
  s.z_t * s.calculate_ang_ss curr_angle

/-- Method `SteadyStateTracker.update_steady_state`.  Over exact rationals the
`math.isnan` guard on the freshly computed `z_t` never fires (a rational is
never NaN), so `z_t` is assigned unconditionally here; the IEEE special-value
behaviour of the same lines is modelled separately by `FpSteady.update_z`.
The new `pos_steady_state` is kept only when the chained comparison
`LOWER <= pos_ss <= UPPER` holds. -/
def SteadyStateTracker.update_steady_state (s : SteadyStateTracker)
    (curr_angle curr_velocity : ℚ) : SteadyStateTracker :=
  let s := { s with vel_steady_state := s.calculate_vel_ss curr_velocity }
  let s := { s with z_t := s.calculate_z_t }
  let pos_ss := s.calculate_pos_ss curr_angle
  if POS_LOWER ≤ pos_ss ∧ pos_ss ≤ POS_UPPER then
    { s with pos_steady_state := pos_ss }
  else s

/-- The `timestamp_sec` attribute slot: `none` models an attribute that was never
assigned (reading it raises `AttributeError`), `some none` models the Python
value `None`, `some (some t)` models a float `t`. -/
abbrev TimestampSlot := Option (Option ℚ)

/-- The mutable fields of `HighLevelController`. -/
structure HighLevelController where
  state : MotionState
  prev_angle : ℚ
  prev_velocity : ℚ
  curr_angle : ℚ
  curr_velocity : ℚ
  extrema_triggers : ExtremaTrigger
  steady_state_tracker : SteadyStateTracker
  timestamp_sec : TimestampSlot
deriving DecidableEq, Repr

/-- Constructor `HighLevelController.__init__`: INITIAL state, zeroed samples, cleared
trigger flags, freshly initialised tracker.  `timestamp_sec` is only
*declared* (`self.timestamp_sec: float | None`), never assigned, hence the
slot starts as `none` (unassigned). -/
def HighLevelController.init : HighLevelController :=
  { state := MotionState.INITIAL
    prev_angle := 0
    prev_velocity := 0
    curr_angle := 0
    curr_velocity := 0
    extrema_triggers := ⟨false, false, false, false⟩
    steady_state_tracker := SteadyStateTracker.init
    timestamp_sec := none }

/-- Method `HighLevelController._set_state`: set the state, record the transition
timestamp, and store the current extremum value in the tracker slot matching
the new state (nothing is recorded for INITIAL). -/
def HighLevelController.set_state (c : HighLevelController)
    (state : MotionState) (timestamp : Option ℚ) : HighLevelController :=
  let c := { c with state := state, timestamp_sec := some timestamp }
  match state with
  | MotionState.INITIAL => c
  | MotionState.ANGLE_MAX =>
      { c with steady_state_tracker :=
          { c.steady_state_tracker with angle_max := c.curr_angle } }
  | MotionState.ANGLE_MIN =>
      { c with steady_state_tracker :=
          { c.steady_state_tracker with angle_min := c.curr_angle } }
  | MotionState.VELOCITY_MAX =>
      { c with steady_state_tracker :=
          { c.steady_state_tracker with velocity_max := c.curr_velocity } }
  | MotionState.VELOCITY_MIN =>
      { c with steady_state_tracker :=
          { c.steady_state_tracker with velocity_min := c.curr_velocity } }

/-- Method `HighLevelController._check_timeout`.  Returns the skip flag and the
possibly reset controller; `none` models the `AttributeError` raised if the
unassigned `timestamp_sec` attribute were read (the read happens only when
the state is not INITIAL, after the Python `is None` test short-circuit on an
assigned slot). -/
def HighLevelController.check_timeout (c : HighLevelController) (timestamp : ℚ) :
    Option (Bool × HighLevelController) :=
  if c.state = MotionState.INITIAL then some (false, c)
  else
    match c.timestamp_sec with
    | none => none
    | some none => some (false, c)
    | some (some t0) =>
        let dt := timestamp - t0
        if dt < TMIN then some (true, c)
        else if TMAX ≤ dt then
          some (true, c.set_state MotionState.INITIAL none)
        else some (false, c)

/-- Method `HighLevelController.update`: shift the sample window, run the timing
gate, run trigger detection and the state machine unless the gate said to
skip, and unconditionally update the steady-state tracker. -/
def HighLevelController.update (c : HighLevelController)
    (curr_angle curr_vel timestamp : ℚ) : Option HighLevelController :=
  let c := { c with
    prev_angle := c.curr_angle
    prev_velocity := c.curr_velocity
    curr_angle := curr_angle
    curr_velocity := curr_vel }
  match c.check_timeout timestamp with
  | none => none
  | some (skip, c) =>
      let c :=
        if skip then c
        else
          let trig :=
            update_triggers curr_angle c.prev_angle curr_vel c.prev_velocity
          let c := { c with extrema_triggers := trig }
          let new_state := detect_state trig c.state
          if c.state ≠ new_state then c.set_state new_state (some timestamp)
          else c
      some { c with steady_state_tracker :=
        c.steady_state_tracker.update_steady_state curr_angle curr_vel }

/-- A run of the controller on a list of `(angle, velocity, timestamp)`
samples, propagating a raised exception (`none`) like the Python caller
would. -/
def HighLevelController.run (c : HighLevelController)
    (samples : List (ℚ × ℚ × ℚ)) : Option HighLevelController :=
  match samples with
  | [] => some c
  | (a, v, ts) :: rest =>
      match c.update a v ts with
      | none => none
      | some c => c.run rest

/-- The bound invariant on `pos_steady_state` (PositionLimitation). -/
def PosInv (s : SteadyStateTracker) : Prop :=
  POS_LOWER ≤ s.pos_steady_state ∧ s.pos_steady_state ≤ POS_UPPER

/-- The reachability invariant of the controller: whenever the state is not
INITIAL, the transition timestamp holds an assigned float, and the steady
position is inside the configured bound. -/
def ControllerInv (c : HighLevelController) : Prop :=
  (c.state = MotionState.INITIAL ∨
    ∃ t : ℚ, c.timestamp_sec = some (some t)) ∧
  PosInv c.steady_state_tracker

/-- Function `math.atan2(y, x)`, modelled exactly as the argument of the complex
number `x + y*i`; its range is (−π, π]. -/
noncomputable def atan2 (y x : ℝ) : ℝ := Complex.arg ⟨x, y⟩

/-- Method `SteadyStateTracker.calculate_gait_phase`: `0.0` while `z_t == 0.0`,
otherwise `math.atan2(vel_steady_state, -pos_steady_state)`. -/
noncomputable def SteadyStateTracker.calculate_gait_phase
    (s : SteadyStateTracker) : ℝ :=
  if s.z_t = 0 then 0
  else atan2 (s.vel_steady_state : ℝ) (-(s.pos_steady_state : ℝ))

/-- Model of an IEEE-754 binary64 value, for the claims about NaN/infinity:
a finite value is kept exact (rounding of in-range finite results is not
modelled, which cannot affect whether a value is NaN or infinite), and
arithmetic on special values and overflow to infinity follow IEEE-754.
`inf true` is +∞, `inf false` is −∞. -/
inductive FpVal where
  | fin : ℚ → FpVal
  | inf : Bool → FpVal
  | nan : FpVal
deriving DecidableEq, Repr

/-- The largest finite binary64 value, `(2^53 − 1) · 2^971` ≈ 1.798·10^308. -/
def FMAX : ℚ := (2 ^ 53 - 1) * 2 ^ 971

/-- Round an exact result into the model: magnitudes beyond the largest
finite binary64 value overflow to the correspondingly signed infinity. -/
def FpVal.ofQ (q : ℚ) : FpVal :=
  if FMAX < q then FpVal.inf true
  else if q < -FMAX then FpVal.inf false
  else FpVal.fin q

/-- binary64 subtraction on the model (`a - b` in `_calculate_z_t`). -/
def FpVal.sub : FpVal → FpVal → FpVal
  | FpVal.fin a, FpVal.fin b => FpVal.ofQ (a - b)
  | FpVal.fin _, FpVal.inf s => FpVal.inf (!s)
  | FpVal.inf s, FpVal.fin _ => FpVal.inf s
  | FpVal.inf s, FpVal.inf t => if s = t then FpVal.nan else FpVal.inf s
  | _, _ => FpVal.nan

/-- binary64 `abs` on the model. -/
def FpVal.abs : FpVal → FpVal
  | FpVal.fin a => FpVal.fin |a|
  | FpVal.inf _ => FpVal.inf true
  | FpVal.nan => FpVal.nan

/-- The Python comparison `v == 0.0` (False for NaN and infinities). -/
def FpVal.eqZero : FpVal → Bool
  | FpVal.fin a => a = 0
  | _ => false

/-- binary64 division on the model.  (The sign of a zero denominator is not
modelled; `_calculate_z_t` never divides by a finite zero because of the
`VALUE_NEAR_ZERO` substitution.) -/
def FpVal.div : FpVal → FpVal → FpVal
  | FpVal.nan, _ => FpVal.nan
  | _, FpVal.nan => FpVal.nan
  | FpVal.inf _, FpVal.inf _ => FpVal.nan
  | FpVal.inf s, FpVal.fin b => if b < 0 then FpVal.inf (!s) else FpVal.inf s
  | FpVal.fin _, FpVal.inf _ => FpVal.fin 0
  | FpVal.fin a, FpVal.fin b =>
      if b = 0 then
        if a = 0 then FpVal.nan
        else if a < 0 then FpVal.inf false else FpVal.inf true
      else FpVal.ofQ (a / b)

/-- Function `math.isnan` on the model. -/
def FpVal.isNan : FpVal → Bool
  | FpVal.nan => true
  | _ => false

/-- The extrema memory and calibration state of `SteadyStateTracker`, over
the binary64 model — the fields that `_calculate_z_t` and the `z_t` update
in `update_steady_state` read and write. -/
structure FpSteady where
  angle_max : FpVal
  angle_min : FpVal
  velocity_max : FpVal
  velocity_min : FpVal
  z_t : FpVal
deriving DecidableEq, Repr

/-- Method `SteadyStateTracker._calculate_z_t` over the binary64 model. -/
def FpSteady.calculate_z_t (s : FpSteady) : FpVal :=
  let u_vel := (s.velocity_max.sub s.velocity_min).abs
  let u_ang := (s.angle_max.sub s.angle_min).abs
  let u_ang := if u_ang.eqZero then FpVal.fin VALUE_NEAR_ZERO else u_ang
  u_vel.div u_ang

/-- The `z_t` update step of `update_steady_state` over the binary64 model:
`z_t = self._calculate_z_t(); if not math.isnan(z_t): self.z_t = z_t`. -/
def FpSteady.update_z (s : FpSteady) : FpSteady :=
  let z_t := s.calculate_z_t
  if z_t.isNan then s else { s with z_t := z_t }

/-- Helper: `_set_state` always makes its argument the current state. -/
lemma set_state_state (c : HighLevelController) (s : MotionState)
    (ts : Option ℚ) : (c.set_state s ts).state = s := by
  cases s <;> rfl

/-- Helper: `_set_state` never touches the trigger flags. -/
lemma set_state_extrema (c : HighLevelController) (s : MotionState)
    (ts : Option ℚ) :
    (c.set_state s ts).extrema_triggers = c.extrema_triggers := by
  cases s <;> rfl

/-- Helper: `_set_state` always records its timestamp argument. -/
lemma set_state_timestamp (c : HighLevelController) (s : MotionState)
    (ts : Option ℚ) : (c.set_state s ts).timestamp_sec = some ts := by
  cases s <;> rfl

/-- Helper: `_set_state` keeps the sample window. -/
lemma set_state_samples (c : HighLevelController) (s : MotionState)
    (ts : Option ℚ) :
    (c.set_state s ts).curr_angle = c.curr_angle ∧
      (c.set_state s ts).curr_velocity = c.curr_velocity := by
  cases s <;> exact ⟨rfl, rfl⟩

/-- C1: from any non-INITIAL state, if `detect_state` changes the state, the
new state is the unique cyclic successor of the old one, and the trigger flag
corresponding to that successor is true. -/
theorem detect_state_cyclic (t : ExtremaTrigger) (s : MotionState)
    (hs : s ≠ MotionState.INITIAL) (hchange : detect_state t s ≠ s) :
    detect_state t s = cyclic_successor s ∧
      trigger_of_state t (cyclic_successor s) = true := by
  revert hs hchange
  obtain ⟨a, b, c, d⟩ := t
  cases s <;> cases a <;> cases b <;> cases c <;> cases d <;> decide

/-- Witness for C1: from ANGLE_MAX with only `vel_min` set, the machine moves
to VELOCITY_MIN, the cyclic successor. -/
theorem detect_state_cyclic_witness :
    detect_state ⟨false, false, true, false⟩ MotionState.ANGLE_MAX =
        cyclic_successor MotionState.ANGLE_MAX ∧
      trigger_of_state ⟨false, false, true, false⟩
        (cyclic_successor MotionState.ANGLE_MAX) = true :=
  detect_state_cyclic ⟨false, false, true, false⟩ MotionState.ANGLE_MAX
    (by decide) (by decide)

/-- C3: from INITIAL, the first true flag in the priority order
`vel_max > ang_max > vel_min > ang_min` selects the next state, and the state
stays INITIAL when no flag is true. -/
theorem detect_state_initial_priority (t : ExtremaTrigger) :
    (t.vel_max = true →
        detect_state t MotionState.INITIAL = MotionState.VELOCITY_MAX) ∧
    (t.vel_max = false → t.ang_max = true →
        detect_state t MotionState.INITIAL = MotionState.ANGLE_MAX) ∧
    (t.vel_max = false → t.ang_max = false → t.vel_min = true →
        detect_state t MotionState.INITIAL = MotionState.VELOCITY_MIN) ∧
    (t.vel_max = false → t.ang_max = false → t.vel_min = false →
        t.ang_min = true →
        detect_state t MotionState.INITIAL = MotionState.ANGLE_MIN) ∧
    (t.vel_max = false → t.ang_max = false → t.vel_min = false →
        t.ang_min = false →
        detect_state t MotionState.INITIAL = MotionState.INITIAL) := by
  obtain ⟨a, b, c, d⟩ := t
  cases a <;> cases b <;> cases c <;> cases d <;>
    simp [detect_state, handle_initial_state]

/-- Witness for C3: with `vel_max` and `ang_max` both set, priority picks
VELOCITY_MAX. -/
theorem detect_state_initial_priority_witness :
    detect_state ⟨true, true, false, false⟩ MotionState.INITIAL =
      MotionState.VELOCITY_MAX :=
  (detect_state_initial_priority ⟨true, true, false, false⟩).1 rfl

/-- Helper: the timing gate is inert in INITIAL (first branch of
`_check_timeout`). -/
lemma check_timeout_initial (c : HighLevelController) (ts : ℚ)
    (h : c.state = MotionState.INITIAL) :
    c.check_timeout ts = some (false, c) := by
  unfold HighLevelController.check_timeout
  rw [if_pos h]

/-- Helper: `_check_timeout` on the timeout branch (`dt >= TMAX`) resets to
INITIAL with a cleared transition timestamp and reports the skip flag. -/
lemma check_timeout_timeout (c : HighLevelController) (t0 ts : ℚ)
    (hstate : c.state ≠ MotionState.INITIAL)
    (hts : c.timestamp_sec = some (some t0))
    (hdt : TMAX ≤ ts - t0) :
    c.check_timeout ts =
      some (true, c.set_state MotionState.INITIAL none) := by
  unfold HighLevelController.check_timeout
  rw [if_neg hstate, hts]
  have h1 : ¬ (ts - t0 < TMIN) := by
    unfold TMIN; unfold TMAX at hdt; linarith
  simp only [h1, if_false, if_pos hdt, if_neg h1]

/-- Helper: `_check_timeout` on the debounce branch (`dt < TMIN`) skips the
sample without touching the controller. -/
lemma check_timeout_debounce (c : HighLevelController) (t0 ts : ℚ)
    (hstate : c.state ≠ MotionState.INITIAL)
    (hts : c.timestamp_sec = some (some t0))
    (hdt : ts - t0 < TMIN) :
    c.check_timeout ts = some (true, c) := by
  unfold HighLevelController.check_timeout
  rw [if_neg hstate, hts]
  simp only [if_pos hdt]

/-- Helper: `_check_timeout` between the thresholds lets the sample through. -/
lemma check_timeout_pass (c : HighLevelController) (t0 ts : ℚ)
    (hstate : c.state ≠ MotionState.INITIAL)
    (hts : c.timestamp_sec = some (some t0))
    (h1 : ¬ (ts - t0 < TMIN)) (h2 : ¬ (TMAX ≤ ts - t0)) :
    c.check_timeout ts = some (false, c) := by
  unfold HighLevelController.check_timeout
  rw [if_neg hstate, hts]
  simp only [if_neg h1, if_neg h2]

/-- C2: if the elapsed time since the last accepted transition reaches TMAX,
`update` forces the state to INITIAL, clears the transition-time record
(Python `None`, resetting the elapsed-time base of the state timer), and runs
no trigger logic for the sample (the stored flags are untouched).  The
hypotheses say the controller is in a non-INITIAL state with a recorded
transition time `t0`, which is exactly when `dt` is defined. -/
theorem update_timeout_resets (c : HighLevelController) (t0 a v ts : ℚ)
    (hstate : c.state ≠ MotionState.INITIAL)
    (hts : c.timestamp_sec = some (some t0))
    (hdt : TMAX ≤ ts - t0) :
    ∃ c', c.update a v ts = some c' ∧
      c'.state = MotionState.INITIAL ∧
      c'.timestamp_sec = some none ∧
      c'.extrema_triggers = c.extrema_triggers := by
  unfold HighLevelController.update
  dsimp only
  rw [check_timeout_timeout
    { state := c.state, prev_angle := c.curr_angle,
      prev_velocity := c.curr_velocity, curr_angle := a, curr_velocity := v,
      extrema_triggers := c.extrema_triggers,
      steady_state_tracker := c.steady_state_tracker,
      timestamp_sec := c.timestamp_sec }
    t0 ts hstate hts hdt]
  exact ⟨_, rfl, rfl, rfl, rfl⟩

/-- Witness for C2: a controller sitting in VELOCITY_MAX since time 0,
updated at time 1 (dt = 1 ≥ 0.6), lands in INITIAL with cleared timer and
unchanged trigger flags. -/
theorem update_timeout_resets_witness :
    ∃ c', (HighLevelController.init.set_state MotionState.VELOCITY_MAX
        (some 0)).update 0 0 1 = some c' ∧
      c'.state = MotionState.INITIAL ∧
      c'.timestamp_sec = some none ∧
      c'.extrema_triggers = (HighLevelController.init.set_state
        MotionState.VELOCITY_MAX (some 0)).extrema_triggers :=
  update_timeout_resets _ 0 0 0 1 (by decide) rfl (by norm_num [TMAX])

/-- C9: while the state is INITIAL the timing gate is inert — `_check_timeout`
returns False whatever the timestamp — so `update` always runs the trigger
logic from INITIAL: the stored flags become the freshly computed triggers and
the new state is whatever `detect_state` picks from INITIAL. -/
theorem initial_state_gate_inert (c : HighLevelController) (a v ts : ℚ)
    (h : c.state = MotionState.INITIAL) :
    c.check_timeout ts = some (false, c) ∧
    ∃ c', c.update a v ts = some c' ∧
      c'.extrema_triggers = update_triggers a c.curr_angle v c.curr_velocity ∧
      c'.state =
        detect_state (update_triggers a c.curr_angle v c.curr_velocity)
          MotionState.INITIAL := by
  refine ⟨check_timeout_initial c ts h, ?_⟩
  unfold HighLevelController.update
  dsimp only
  rw [check_timeout_initial
    { state := c.state, prev_angle := c.curr_angle,
      prev_velocity := c.curr_velocity, curr_angle := a, curr_velocity := v,
      extrema_triggers := c.extrema_triggers,
      steady_state_tracker := c.steady_state_tracker,
      timestamp_sec := c.timestamp_sec }
    ts h]
  dsimp only
  rw [h]
  simp only [if_neg Bool.false_ne_true]
  refine ⟨_, rfl, ?_, ?_⟩
  · dsimp only
    split
    · rw [set_state_extrema]
    · rfl
  · dsimp only
    split
    · rw [set_state_state]
    · next h' => exact not_ne_iff.mp h'

/-- Witness for C9: a fresh controller at any late timestamp still evaluates
triggers; the sample (angle 1, velocity 1 after zeros) fires `vel_max` and
the state becomes VELOCITY_MAX. -/
theorem initial_state_gate_inert_witness :
    HighLevelController.init.check_timeout 100 =
        some (false, HighLevelController.init) ∧
    ∃ c', HighLevelController.init.update 1 1 100 = some c' ∧
      c'.extrema_triggers = update_triggers 1 0 1 0 ∧
      c'.state = detect_state (update_triggers 1 0 1 0) MotionState.INITIAL :=
  initial_state_gate_inert HighLevelController.init 1 1 100 rfl

/-- C7 (amended): `update` performs no input validation.  A timestamp earlier
than the recorded transition time makes `dt` negative, and the `dt < TMIN`
debounce branch silently swallows the sample: no error is raised, and state,
trigger flags and the recorded transition time are all left unchanged. -/
theorem update_absorbs_nonmonotonic_timestamp (c : HighLevelController)
    (t0 a v ts : ℚ) (hstate : c.state ≠ MotionState.INITIAL)
    (hts : c.timestamp_sec = some (some t0)) (hlt : ts < t0) :
    ∃ c', c.update a v ts = some c' ∧ c'.state = c.state ∧
      c'.extrema_triggers = c.extrema_triggers ∧
      c'.timestamp_sec = c.timestamp_sec := by
  unfold HighLevelController.update
  dsimp only
  rw [check_timeout_debounce
    { state := c.state, prev_angle := c.curr_angle,
      prev_velocity := c.curr_velocity, curr_angle := a, curr_velocity := v,
      extrema_triggers := c.extrema_triggers,
      steady_state_tracker := c.steady_state_tracker,
      timestamp_sec := c.timestamp_sec }
    t0 ts hstate hts (by unfold TMIN; linarith)]
  exact ⟨_, rfl, rfl, rfl, rfl⟩

/-- Witness for C7's amended statement: concrete controller in VELOCITY_MAX
since time 5, updated with the smaller timestamp 4 — accepted silently. -/
theorem update_absorbs_nonmonotonic_timestamp_witness :
    ∃ c', (HighLevelController.init.set_state MotionState.VELOCITY_MAX
        (some 5)).update 0 0 4 = some c' ∧
      c'.state = (HighLevelController.init.set_state MotionState.VELOCITY_MAX
        (some 5)).state ∧
      c'.extrema_triggers = (HighLevelController.init.set_state
        MotionState.VELOCITY_MAX (some 5)).extrema_triggers ∧
      c'.timestamp_sec = (HighLevelController.init.set_state
        MotionState.VELOCITY_MAX (some 5)).timestamp_sec :=
  update_absorbs_nonmonotonic_timestamp _ 5 0 0 4 (by decide) rfl (by norm_num)

/-- Counterexample for C7 as stated: a call with a strictly decreasing
timestamp does not surface any error.  The first `update` (time 1) moves a
fresh controller to VELOCITY_MAX; the second `update` goes back in time to 0,
yet returns normally — the negative `dt` lands in the debounce branch — with
the state untouched, instead of failing fast. -/
theorem update_no_error_on_nonmonotonic :
    HighLevelController.init.update (3/10) (1/10) 1 =
      some { state := MotionState.VELOCITY_MAX, prev_angle := 0,
             prev_velocity := 0, curr_angle := 3/10, curr_velocity := 1/10,
             extrema_triggers := ⟨true, false, false, false⟩,
             steady_state_tracker :=
               { angle_max := 0, angle_min := 0, velocity_max := 1/10,
                 velocity_min := 0, vel_steady_state := 1/20, z_t := 100000,
                 pos_steady_state := 0 },
             timestamp_sec := some (some 1) } ∧
    HighLevelController.update
      { state := MotionState.VELOCITY_MAX, prev_angle := 0,
        prev_velocity := 0, curr_angle := 3/10, curr_velocity := 1/10,
        extrema_triggers := ⟨true, false, false, false⟩,
        steady_state_tracker :=
          { angle_max := 0, angle_min := 0, velocity_max := 1/10,
            velocity_min := 0, vel_steady_state := 1/20, z_t := 100000,
            pos_steady_state := 0 },
        timestamp_sec := some (some 1) }
      (3/10) (1/10) 0 =
      some { state := MotionState.VELOCITY_MAX, prev_angle := 3/10,
             prev_velocity := 1/10, curr_angle := 3/10, curr_velocity := 1/10,
             extrema_triggers := ⟨true, false, false, false⟩,
             steady_state_tracker :=
               { angle_max := 0, angle_min := 0, velocity_max := 1/10,
                 velocity_min := 0, vel_steady_state := 1/20, z_t := 100000,
                 pos_steady_state := 0 },
             timestamp_sec := some (some 1) } := by
  constructor <;>
    norm_num [HighLevelController.update, HighLevelController.check_timeout,
      HighLevelController.set_state, HighLevelController.init, update_triggers,
      velocity_max_trigger, angle_max_trigger, velocity_min_trigger,
      angle_min_trigger, hit_zero_crossing_from_lower,
      hit_zero_crossing_from_upper, detect_state, handle_initial_state,
      SteadyStateTracker.update_steady_state, SteadyStateTracker.calculate_vel_ss,
      SteadyStateTracker.calculate_ang_ss, SteadyStateTracker.calculate_z_t,
      SteadyStateTracker.calculate_pos_ss, calculate_steady,
      SteadyStateTracker.init, TMIN, TMAX, VALUE_NEAR_ZERO, POS_UPPER,
      POS_LOWER] <;>
    simp [reduceCtorEq] <;> norm_num [abs_of_nonneg]

/-- Helper: explicit result of feeding the first scenario sample
(angle 0.3, velocity 0.1) to a fresh controller.  The zero-to-positive angle
step with positive velocity fires `vel_max`, so the controller enters
VELOCITY_MAX immediately and records `velocity_max = 0.1`. -/
lemma scenario_first_step (t1 : ℚ) :
    HighLevelController.init.update (3/10) (1/10) t1 =
      some { state := MotionState.VELOCITY_MAX, prev_angle := 0,
             prev_velocity := 0, curr_angle := 3/10, curr_velocity := 1/10,
             extrema_triggers := ⟨true, false, false, false⟩,
             steady_state_tracker :=
               { angle_max := 0, angle_min := 0, velocity_max := 1/10,
                 velocity_min := 0, vel_steady_state := 1/20, z_t := 100000,
                 pos_steady_state := 0 },
             timestamp_sec := some (some t1) } := by
  norm_num [HighLevelController.update, HighLevelController.check_timeout,
    HighLevelController.set_state, HighLevelController.init, update_triggers,
    velocity_max_trigger, angle_max_trigger, velocity_min_trigger,
    angle_min_trigger, hit_zero_crossing_from_lower,
    hit_zero_crossing_from_upper, detect_state, handle_initial_state,
    SteadyStateTracker.update_steady_state, SteadyStateTracker.calculate_vel_ss,
    SteadyStateTracker.calculate_ang_ss, SteadyStateTracker.calculate_z_t,
    SteadyStateTracker.calculate_pos_ss, calculate_steady,
    SteadyStateTracker.init, TMIN, TMAX, VALUE_NEAR_ZERO, POS_UPPER,
    POS_LOWER] <;>
    simp [reduceCtorEq] <;> norm_num [abs_of_nonneg]

/-- C8: feeding a fresh controller angle 0.3 with velocities 0.1 then -0.1,
the samples a `dt` apart with TMIN < dt < TMAX, makes the `ang_max` flag true
on the second sample, and the controller — started in INITIAL — ends in
ANGLE_MAX with the recorded extremum `angle_max = 0.3`.  (The first sample
already moves it from INITIAL to VELOCITY_MAX, see `scenario_first_step`;
the second advances it to ANGLE_MAX.) -/
theorem scenario_angle_max (t1 t2 : ℚ)
    (h1 : TMIN < t2 - t1) (h2 : t2 - t1 < TMAX) :
    (HighLevelController.init.run
        [(3/10, 1/10, t1), (3/10, -1/10, t2)]).map
        (fun c => (c.state, c.extrema_triggers.ang_max,
          c.steady_state_tracker.angle_max)) =
      some (MotionState.ANGLE_MAX, true, 3/10) := by
  have h1' : (0:ℚ) < t2 - t1 := by simpa [TMIN] using h1
  have h2' : t2 - t1 < (3:ℚ)/5 := by simpa [TMAX] using h2
  have hltF : (t2 - t1 < TMIN) = False :=
    eq_false fun hc => absurd hc (not_lt.mpr h1.le)
  have hltF' : (t2 < t1) = False :=
    eq_false (not_lt.mpr (by linarith))
  have hgeF : (TMAX ≤ t2 - t1) = False :=
    eq_false fun hc => absurd h2 (not_lt.mpr hc)
  have hgeF' : ((3:ℚ)/5 ≤ t2 - t1) = False :=
    eq_false (not_le.mpr h2')
  unfold HighLevelController.run
  rw [scenario_first_step t1]
  norm_num [HighLevelController.run,
    HighLevelController.update, HighLevelController.check_timeout,
    HighLevelController.set_state, update_triggers,
    velocity_max_trigger, angle_max_trigger, velocity_min_trigger,
    angle_min_trigger, hit_zero_crossing_from_lower,
    hit_zero_crossing_from_upper, detect_state, handle_initial_state,
    SteadyStateTracker.update_steady_state, SteadyStateTracker.calculate_vel_ss,
    SteadyStateTracker.calculate_ang_ss, SteadyStateTracker.calculate_z_t,
    SteadyStateTracker.calculate_pos_ss, calculate_steady,
    TMIN, TMAX, VALUE_NEAR_ZERO, POS_UPPER, POS_LOWER, hltF, hltF', hgeF,
    hgeF'] <;>
    simp [reduceCtorEq] <;> norm_num [abs_of_nonneg]

/-- Witness for C8 at t1 = 0, t2 = 0.3 (dt = 0.3, strictly between the
thresholds 0 and 0.6). -/
theorem scenario_angle_max_witness :
    (HighLevelController.init.run
        [(3/10, 1/10, 0), (3/10, -1/10, 3/10)]).map
        (fun c => (c.state, c.extrema_triggers.ang_max,
          c.steady_state_tracker.angle_max)) =
      some (MotionState.ANGLE_MAX, true, 3/10) :=
  scenario_angle_max 0 (3/10) (by norm_num [TMIN]) (by norm_num [TMAX])

/-- Helper: `_set_state` never touches `pos_steady_state`. -/
lemma set_state_pos (c : HighLevelController) (s : MotionState)
    (ts : Option ℚ) :
    (c.set_state s ts).steady_state_tracker.pos_steady_state =
      c.steady_state_tracker.pos_steady_state := by
  cases s <;> rfl

/-- Helper: `update_steady_state` keeps `pos_steady_state` within the bound —
a candidate is stored only when the chained comparison accepts it. -/
lemma pos_inv_preserved (s : SteadyStateTracker) (a v : ℚ)
    (h : PosInv s) : PosInv (s.update_steady_state a v) := by
  unfold SteadyStateTracker.update_steady_state
  dsimp only
  split
  · next hcond => exact hcond
  · exact h

/-- Helper: a single `update` from an invariant state returns normally (no
`AttributeError`) and re-establishes the invariant. -/
lemma update_preserves_inv (c : HighLevelController) (a v ts : ℚ)
    (h : ControllerInv c) :
    ∃ c', c.update a v ts = some c' ∧ ControllerInv c' := by
  obtain ⟨hts, hpos⟩ := h
  unfold HighLevelController.update
  dsimp only
  by_cases hst : c.state = MotionState.INITIAL
  · rw [check_timeout_initial
      { state := c.state, prev_angle := c.curr_angle,
        prev_velocity := c.curr_velocity, curr_angle := a, curr_velocity := v,
        extrema_triggers := c.extrema_triggers,
        steady_state_tracker := c.steady_state_tracker,
        timestamp_sec := c.timestamp_sec }
      ts hst]
    dsimp only
    simp only [if_neg Bool.false_ne_true]
    refine ⟨_, rfl, ?_, ?_⟩
    · dsimp only
      split
      · right
        rw [set_state_timestamp]
        exact ⟨ts, rfl⟩
      · left
        rw [hst]
    · dsimp only
      refine pos_inv_preserved _ a v ?_
      split
      · rw [PosInv, set_state_pos]
        exact hpos
      · exact hpos
  · obtain ⟨t0, ht0⟩ := hts.resolve_left hst
    by_cases hlt : ts - t0 < TMIN
    · rw [check_timeout_debounce
        { state := c.state, prev_angle := c.curr_angle,
          prev_velocity := c.curr_velocity, curr_angle := a,
          curr_velocity := v, extrema_triggers := c.extrema_triggers,
          steady_state_tracker := c.steady_state_tracker,
          timestamp_sec := c.timestamp_sec }
        t0 ts hst ht0 hlt]
      refine ⟨_, rfl, Or.inr ⟨t0, ht0⟩, pos_inv_preserved _ a v hpos⟩
    · by_cases hge : TMAX ≤ ts - t0
      · rw [check_timeout_timeout
          { state := c.state, prev_angle := c.curr_angle,
            prev_velocity := c.curr_velocity, curr_angle := a,
            curr_velocity := v, extrema_triggers := c.extrema_triggers,
            steady_state_tracker := c.steady_state_tracker,
            timestamp_sec := c.timestamp_sec }
          t0 ts hst ht0 hge]
        exact ⟨_, rfl, Or.inl rfl, pos_inv_preserved _ a v hpos⟩
      · rw [check_timeout_pass
          { state := c.state, prev_angle := c.curr_angle,
            prev_velocity := c.curr_velocity, curr_angle := a,
            curr_velocity := v, extrema_triggers := c.extrema_triggers,
            steady_state_tracker := c.steady_state_tracker,
            timestamp_sec := c.timestamp_sec }
          t0 ts hst ht0 hlt hge]
        dsimp only
        simp only [if_neg Bool.false_ne_true]
        refine ⟨_, rfl, ?_, ?_⟩
        · dsimp only
          split
          · right
            rw [set_state_timestamp]
            exact ⟨ts, rfl⟩
          · exact Or.inr ⟨t0, ht0⟩
        · dsimp only
          refine pos_inv_preserved _ a v ?_
          split
          · rw [PosInv, set_state_pos]
            exact hpos
          · exact hpos

/-- Helper: the invariant holds for the freshly constructed controller. -/
lemma init_inv : ControllerInv HighLevelController.init := by
  refine ⟨Or.inl rfl, ?_, ?_⟩ <;>
    norm_num [HighLevelController.init, SteadyStateTracker.init, POS_LOWER,
      POS_UPPER]

/-- Helper: a whole run from an invariant state returns normally and ends in
an invariant state. -/
lemma run_preserves_inv (l : List (ℚ × ℚ × ℚ)) (c : HighLevelController)
    (h : ControllerInv c) :
    ∃ c', c.run l = some c' ∧ ControllerInv c' := by
  induction l generalizing c with
  | nil => exact ⟨c, rfl, h⟩
  | cons x rest ih =>
      obtain ⟨a, v, ts⟩ := x
      obtain ⟨c₁, hup, hinv⟩ := update_preserves_inv c a v ts h
      obtain ⟨c', hrun, hinv'⟩ := ih c₁ hinv
      refine ⟨c', ?_, hinv'⟩
      unfold HighLevelController.run
      rw [hup]
      exact hrun

/-- C10: on any run of a fresh controller, `update` never raises — in
particular the `timestamp - timestamp_sec` subtraction in `_check_timeout` is
never evaluated on the unassigned attribute — and whenever the final state is
not INITIAL the `timestamp_sec` slot holds an assigned float (it is written
on every accepted transition). -/
theorem timestamp_always_assigned (l : List (ℚ × ℚ × ℚ)) :
    ∃ c', HighLevelController.init.run l = some c' ∧
      (c'.state = MotionState.INITIAL ∨
        ∃ t : ℚ, c'.timestamp_sec = some (some t)) := by
  obtain ⟨c', hrun, hinv⟩ := run_preserves_inv l HighLevelController.init
    init_inv
  exact ⟨c', hrun, hinv.1⟩

/-- C5: after any run of a fresh controller (hence after every `update`
call), the stored `pos_steady_state` lies within the symmetric bound
[-10, 10]: a candidate `z_t * angle_steady` is stored only when the chained
comparison `LOWER <= pos_ss <= UPPER` accepts it, otherwise the previous
value is retained (see `pos_inv_preserved`). -/
theorem position_steady_bounded (l : List (ℚ × ℚ × ℚ)) :
    ∃ c', HighLevelController.init.run l = some c' ∧
      POS_LOWER ≤ c'.steady_state_tracker.pos_steady_state ∧
      c'.steady_state_tracker.pos_steady_state ≤ POS_UPPER := by
  obtain ⟨c', hrun, hinv⟩ := run_preserves_inv l HighLevelController.init
    init_inv
  exact ⟨c', hrun, hinv.2⟩

/-- C6 (amended): the readable gait phase equals
`atan2(vel_steady, -pos_steady)` whenever the stored `z_t` is nonzero, equals
`0` whenever the stored `z_t` is zero — the code uses `z_t == 0.0` as the
proxy for "never assigned", which also captures valid assignments of exactly
zero — and always lies in the half-open interval (−π, π]. -/
theorem gait_phase_spec (s : SteadyStateTracker) :
    (s.z_t = 0 → s.calculate_gait_phase = 0) ∧
    (s.z_t ≠ 0 → s.calculate_gait_phase =
      atan2 (s.vel_steady_state : ℝ) (-(s.pos_steady_state : ℝ))) ∧
    s.calculate_gait_phase ∈ Set.Ioc (-Real.pi) Real.pi := by
  refine ⟨fun h => by simp [SteadyStateTracker.calculate_gait_phase, h],
    fun h => by simp [SteadyStateTracker.calculate_gait_phase, h], ?_⟩
  unfold SteadyStateTracker.calculate_gait_phase
  split
  · refine Set.mem_Ioc.mpr ⟨?_, ?_⟩ <;> linarith [Real.pi_pos]
  · exact Complex.arg_mem_Ioc _

/-- Witness for C6's amended statement: the fresh tracker has `z_t = 0` and
gait phase `0` (and `0` is inside (−π, π]). -/
theorem gait_phase_spec_witness :
    SteadyStateTracker.init.calculate_gait_phase = 0 :=
  (gait_phase_spec SteadyStateTracker.init).1 rfl

/-- Counterexample for C6 as stated: one `update_steady_state` call on a
fresh tracker (angle 0, velocity 1) *does* assign `z_t` a valid (non-NaN)
value — namely `0`, because the velocity amplitude is still zero — yet the
gait phase stays `0` instead of `atan2(vel_steady, -pos_steady) = π/2`. -/
theorem gait_phase_zero_despite_assigned_z :
    (SteadyStateTracker.init.update_steady_state 0 1).calculate_gait_phase ≠
      atan2
        (((SteadyStateTracker.init.update_steady_state 0
          1).vel_steady_state : ℝ))
        (-(((SteadyStateTracker.init.update_steady_state 0
          1).pos_steady_state : ℝ))) := by
  have hupd : SteadyStateTracker.init.update_steady_state 0 1 =
      ⟨0, 0, 0, 0, 1, 0, 0⟩ := by
    norm_num [SteadyStateTracker.update_steady_state, SteadyStateTracker.init,
      SteadyStateTracker.calculate_vel_ss, SteadyStateTracker.calculate_ang_ss,
      SteadyStateTracker.calculate_z_t, SteadyStateTracker.calculate_pos_ss,
      calculate_steady, VALUE_NEAR_ZERO, POS_UPPER, POS_LOWER]
  have hL : (SteadyStateTracker.init.update_steady_state
      0 1).calculate_gait_phase = 0 := by
    rw [hupd]
    simp [SteadyStateTracker.calculate_gait_phase]
  have hI : (⟨-(((0:ℚ):ℝ)), ((1:ℚ):ℝ)⟩ : ℂ) = Complex.I := by
    apply Complex.ext <;> simp
  have hR : atan2
      (((SteadyStateTracker.init.update_steady_state 0
        1).vel_steady_state : ℝ))
      (-(((SteadyStateTracker.init.update_steady_state 0
        1).pos_steady_state : ℝ))) = Real.pi / 2 := by
    rw [hupd]
    show atan2 ((1:ℚ):ℝ) (-((0:ℚ):ℝ)) = Real.pi / 2
    unfold atan2
    rw [hI, Complex.arg_I]
  rw [hL, hR]
  exact ne_of_lt (by positivity)

/-- C4 (amended): the stored `z_t` is never NaN — a NaN quotient is filtered
by the `math.isnan` guard, and the zero-angle-amplitude case divides by
`VALUE_NEAR_ZERO` instead of zero.  (Only NaN is filtered: the guard does not
reject infinities.) -/
theorem z_never_nan (s : FpSteady) (h : s.z_t.isNan = false) :
    s.update_z.z_t.isNan = false ∧
    (∀ a : ℚ, s.angle_max = FpVal.fin a → s.angle_min = FpVal.fin a →
      s.calculate_z_t =
        (s.velocity_max.sub s.velocity_min).abs.div
          (FpVal.fin VALUE_NEAR_ZERO)) := by
  constructor
  · unfold FpSteady.update_z
    dsimp only
    split
    · exact h
    · next hz => simpa using hz
  · intro a h1 h2
    unfold FpSteady.calculate_z_t
    rw [h1, h2]
    have hsub : FpVal.sub (FpVal.fin a) (FpVal.fin a) = FpVal.fin 0 := by
      have hF : (0:ℚ) ≤ FMAX := by norm_num [FMAX]
      simp only [FpVal.sub, FpVal.ofQ, sub_self]
      rw [if_neg (by linarith), if_neg (by linarith)]
    rw [hsub]
    simp [FpVal.abs, FpVal.eqZero]

/-- Witness for C4's amended statement at the all-zero (fresh) state. -/
theorem z_never_nan_witness :
    (FpSteady.update_z ⟨FpVal.fin 0, FpVal.fin 0, FpVal.fin 0, FpVal.fin 0,
      FpVal.fin 0⟩).z_t.isNan = false :=
  (z_never_nan ⟨FpVal.fin 0, FpVal.fin 0, FpVal.fin 0, FpVal.fin 0,
    FpVal.fin 0⟩ rfl).1

/-- Counterexample for C4 as stated: from finite inputs only — velocity
extrema 10^308 and 0 (both representable finite doubles), angle extrema both
0 — the quotient 10^308 / 10^-6 = 10^314 overflows to +∞, and the
`math.isnan` guard stores it: the stored `z_t` *can* become infinite. -/
theorem z_becomes_infinite :
    (FpSteady.update_z ⟨FpVal.fin 0, FpVal.fin 0, FpVal.fin (10 ^ 308),
      FpVal.fin 0, FpVal.fin 0⟩).z_t = FpVal.inf true := by
  norm_num [FpSteady.update_z, FpSteady.calculate_z_t, FpVal.sub, FpVal.abs,
    FpVal.eqZero, FpVal.div, FpVal.isNan, FpVal.ofQ, VALUE_NEAR_ZERO, FMAX,
    abs_of_nonneg]

end HipController
